import Mathlib

/-!
Shallow embedding of the two AWS Lambda handlers of this repository:
`amplify/functions/hello-world/handler.ts` (greeting handler) and
`amplify/functions/todo-processor/handler.ts` (todo handler), together
with proofs of the specification's claims about them.

Modelling conventions:
* JSON values are the inductive `Json`; `JSON.parse` is a JS-runtime
  builtin, so each handler takes a `parseJson : String → Option Json`
  oracle (`none` models a parse exception).  Objects produced by
  `JSON.parse` have unique keys, so field lookup takes the first match.
* `new Date().toISOString()` is the `now : String` parameter,
  `Date.now()` the `nowMs : Nat` parameter, and the
  `Math.random().toString(36).substr(2, 9)` suffix the `rand : String`
  parameter; `process.env.FUNCTION_NAME` is `envFunctionName`.
* Machine-level JS numbers only occur as JSON payload numbers and the
  millisecond clock; both are modelled exactly (`Int`, `Nat`).
* `try`/`catch` blocks whose bodies cannot throw in this model are
  translated as their bodies; the only modelled exception source is
  `JSON.parse`, whose failure paths are translated explicitly.
-/

/-- A JSON value, the result of a successful `JSON.parse`. -/
inductive Json where
  | null
  | bool (b : Bool)
  | num (n : Int)
  | str (s : String)
  | arr (elems : List Json)
  | obj (fields : List (String × Json))

/-- First-match association lookup, the behaviour of JS property access on
objects coming out of `JSON.parse` (whose keys are unique). -/
def lookupAssoc {α : Type} : List (String × α) → String → Option α
  | [], _ => none
  | (k, v) :: rest, key => if k = key then some v else lookupAssoc rest key

/-- JS property access `j.key`: `none` models `undefined` (absent key or
non-object receiver). -/
def getField : Json → String → Option Json
  | .obj fields, key => lookupAssoc fields key
  | _, _ => none

/-- JS truthiness of a JSON value (`NaN` is not representable in JSON). -/
def truthy : Json → Bool
  | .null => false
  | .bool b => b
  | .num n => n != 0
  | .str s => s != ""
  | .arr _ => true
  | .obj _ => true

/-- Whether a parsed value is JSON `null`.  Property access (`v.field`)
throws a TypeError in JS exactly when the receiver is `null` (or
`undefined`, which `JSON.parse` never returns); on every other primitive
it yields `undefined`. -/
def Json.isNull : Json → Bool
  | .null => true
  | _ => false

mutual

/-- JS `ToString` of a JSON value, as used by template-literal
interpolation. -/
def jsToString : Json → String
  | .null => "null"
  | .bool true => "true"
  | .bool false => "false"
  | .num n => n.repr
  | .str s => s
  | .arr elems => String.intercalate "," (jsArrayToStrings elems)
  | .obj _ => "[object Object]"

/-- Array elements under `Array.prototype.toString`: `null` renders as the
empty string, everything else via `jsToString`. -/
def jsArrayToStrings : List Json → List String
  | [] => []
  | .null :: rest => "" :: jsArrayToStrings rest
  | j :: rest => jsToString j :: jsArrayToStrings rest

end

/-- The JS pattern `j.key || dflt` read at a string position (the declared
TS type of these fields): a truthy field is interpolated via `jsToString`,
a falsy or absent one yields the default. -/
def jsFieldOr (j : Json) (key : String) (dflt : String) : String :=
  match getField j key with
  | some v => if truthy v then jsToString v else dflt
  | none => dflt

/-- The JS pattern `j.key || false` at a boolean position. -/
def jsFieldTruthy (j : Json) (key : String) : Bool :=
  match getField j key with
  | some v => truthy v
  | none => false

/-- The JS pattern `v || dflt` for an optional string (absent or empty
strings are falsy). -/
def jsOptStrOr (v : Option String) (dflt : String) : String :=
  match v with
  | some s => if s = "" then dflt else s
  | none => dflt

/-- The inbound `APIGatewayProxyEvent`, restricted to the fields the two
handlers read. -/
structure APIGatewayProxyEvent where
  httpMethod : String
  path : String
  queryStringParameters : Option (List (String × String))
  pathParameters : Option (List (String × String))
  body : Option String

/-- `event.queryStringParameters?.name`. -/
def queryName (event : APIGatewayProxyEvent) : Option String :=
  match event.queryStringParameters with
  | some ps => lookupAssoc ps "name"
  | none => none

/-- `event.pathParameters?.id`. -/
def pathId (event : APIGatewayProxyEvent) : Option String :=
  match event.pathParameters with
  | some ps => lookupAssoc ps "id"
  | none => none

/-- An HTTP response body: either a raw string (the `''` of the OPTIONS
branch) or the `JSON.stringify` of a structured value. -/
inductive ResultBody where
  | raw (s : String)
  | json (j : Json)

/-- The `APIGatewayProxyResult` returned by both handlers. -/
structure APIGatewayProxyResult where
  statusCode : Nat
  headers : List (String × String)
  body : ResultBody

/-- The `message` field of a JSON response body, if any. -/
def responseMessage (r : APIGatewayProxyResult) : Option Json :=
  match r.body with
  | .json j => getField j "message"
  | .raw _ => none

/-- The settled state of the promise returned by an async Lambda handler:
a fulfilled HTTP response, or an unhandled rejection (a thrown error that
no enclosing catch observes, so no response is produced). -/
inductive AsyncOutcome where
  | response (r : APIGatewayProxyResult)
  | rejected

/-- The status code of a settled handler invocation, if it responded. -/
def outcomeStatus : AsyncOutcome → Option Nat
  | .response r => some r.statusCode
  | .rejected => none

/-- The `message` body field of a settled handler invocation, if it
responded with one. -/
def outcomeMessage : AsyncOutcome → Option Json
  | .response r => responseMessage r
  | .rejected => none

namespace HelloWorld

/-- The CORS header literal repeated in each response of
`hello-world/handler.ts`. -/
def corsHeaders : List (String × String) :=
  [("Content-Type", "application/json"),
   ("Access-Control-Allow-Origin", "*"),
   ("Access-Control-Allow-Headers", "Content-Type"),
   ("Access-Control-Allow-Methods", "GET, POST, OPTIONS")]

/-- `createErrorResponse` of `hello-world/handler.ts`. -/
def createErrorResponse (statusCode : Nat) (message : String)
    (now : String) : APIGatewayProxyResult :=
  { statusCode := statusCode
    headers := corsHeaders
    body := .json (.obj
      [("error", .str message),
       ("timestamp", .str now),
       ("statusCode", .num (statusCode : Int))]) }

/-- `handleGetRequest` of `hello-world/handler.ts`. -/
def handleGetRequest (envFunctionName : Option String) (now : String)
    (event : APIGatewayProxyEvent) : APIGatewayProxyResult :=
  let userName := jsOptStrOr (queryName event) "World"
  { statusCode := 200
    headers := corsHeaders
    body := .json (.obj
      [("message", .str ("Hello " ++ userName ++ "!")),
       ("timestamp", .str now),
       ("method", .str "GET"),
       ("functionName", .str (jsOptStrOr envFunctionName "hello-world"))]) }

/-- `handlePostRequest` of `hello-world/handler.ts` on its
response-producing paths: a falsy (`null` or empty) body is replaced by
`{}`, otherwise the body is parsed, a parse exception producing the 400
error response.  On a body parsing to JSON `null` the source instead
throws (`requestBody.name` on `null`) and produces no response; that path
is modelled by `handlePostRequestRun` below, which is the authoritative
semantics of the function. -/
def handlePostRequest (parseJson : String → Option Json)
    (envFunctionName : Option String) (now : String)
    (event : APIGatewayProxyEvent) : APIGatewayProxyResult :=
  let parsed : Option Json :=
    match event.body with
    | none => some (.obj [])
    | some s => if s = "" then some (.obj []) else parseJson s
  match parsed with
  | none => createErrorResponse 400 "リクエストボディが無効なJSON形式です" now
  | some requestBody =>
    let userName := jsFieldOr requestBody "name" "World"
    let customMessage := jsFieldOr requestBody "message" "Hello"
    { statusCode := 200
      headers := corsHeaders
      body := .json (.obj
        [("message", .str (customMessage ++ " " ++ userName ++ "!")),
         ("timestamp", .str now),
         ("method", .str "POST"),
         ("receivedData", requestBody),
         ("functionName", .str (jsOptStrOr envFunctionName "hello-world"))]) }

/-- The exported `handler` of `hello-world/handler.ts` on its
response-producing paths: a switch on the HTTP method with a 405 default.
The promise-level semantics, including the rejection escaping on a
JSON-`null` POST body, is `handlerRun` below; `handler` agrees with it on
every fulfilled path (`handlerRun_response_eq`). -/
def handler (parseJson : String → Option Json)
    (envFunctionName : Option String) (now : String)
    (event : APIGatewayProxyEvent) : APIGatewayProxyResult :=
  if event.httpMethod = "GET" then
    handleGetRequest envFunctionName now event
  else if event.httpMethod = "POST" then
    handlePostRequest parseJson envFunctionName now event
  else
    createErrorResponse 405 "メソッドが許可されていません" now

/-- `handlePostRequest` of `hello-world/handler.ts` with its thrown path
explicit: when the parsed body is JSON `null`, the property access
`requestBody.name` (line 86) throws a TypeError outside the parse `try`,
so the async function's promise rejects and no response is produced. -/
def handlePostRequestRun (parseJson : String → Option Json)
    (envFunctionName : Option String) (now : String)
    (event : APIGatewayProxyEvent) : AsyncOutcome :=
  let parsed : Option Json :=
    match event.body with
    | none => some (.obj [])
    | some s => if s = "" then some (.obj []) else parseJson s
  match parsed with
  | none => .response (createErrorResponse 400 "リクエストボディが無効なJSON形式です" now)
  | some requestBody =>
    if requestBody.isNull then .rejected
    else
      let userName := jsFieldOr requestBody "name" "World"
      let customMessage := jsFieldOr requestBody "message" "Hello"
      .response
        { statusCode := 200
          headers := corsHeaders
          body := .json (.obj
            [("message", .str (customMessage ++ " " ++ userName ++ "!")),
             ("timestamp", .str now),
             ("method", .str "POST"),
             ("receivedData", requestBody),
             ("functionName", .str (jsOptStrOr envFunctionName "hello-world"))]) }

/-- The exported `handler` of `hello-world/handler.ts` at promise level:
`return handlePostRequest(event)` (line 31) returns the inner promise
without awaiting it, so its rejection escapes the surrounding
`try`/`catch` and the handler's own promise rejects. -/
def handlerRun (parseJson : String → Option Json)
    (envFunctionName : Option String) (now : String)
    (event : APIGatewayProxyEvent) : AsyncOutcome :=
  if event.httpMethod = "GET" then
    .response (handleGetRequest envFunctionName now event)
  else if event.httpMethod = "POST" then
    handlePostRequestRun parseJson envFunctionName now event
  else
    .response (createErrorResponse 405 "メソッドが許可されていません" now)

end HelloWorld

namespace TodoProcessor

/-- The `TodoItem` interface of `todo-processor/handler.ts`; `id`,
`createdAt` and `updatedAt` are optional there. -/
structure TodoItem where
  id : Option String
  content : String
  isDone : Bool
  createdAt : Option String
  updatedAt : Option String

/-- The payload of a `TodoResponse`: a single item or a list of items. -/
inductive TodoData where
  | item (t : TodoItem)
  | items (l : List TodoItem)

/-- The `TodoResponse` envelope of `todo-processor/handler.ts`. -/
structure TodoResponse where
  success : Bool
  data : Option TodoData
  message : Option String
  error : Option String

/-- The CORS header literal of `todo-processor/handler.ts`. -/
def corsHeaders : List (String × String) :=
  [("Content-Type", "application/json"),
   ("Access-Control-Allow-Origin", "*"),
   ("Access-Control-Allow-Headers", "Content-Type, Authorization"),
   ("Access-Control-Allow-Methods", "GET, POST, PUT, DELETE, OPTIONS")]

/-- `generateUniqueId` of `todo-processor/handler.ts`:
`` `todo-${Date.now()}-${Math.random().toString(36).substr(2, 9)}` ``. -/
def generateUniqueId (nowMs : Nat) (rand : String) : String :=
  "todo-" ++ Nat.repr nowMs ++ "-" ++ rand

/-- The validation `!todoData.content || typeof todoData.content !== 'string'`
of `handleCreateTodo`, as a predicate on the looked-up field: the field is
accepted exactly when it is a non-empty string. -/
def contentFieldValid : Option Json → Bool
  | some (.str s) => s != ""
  | _ => false

/-- The `success: false` envelope for a missing request body. -/
def bodyRequiredError : TodoResponse :=
  { success := false, data := none, message := none
    error := some "リクエストボディが必要です" }

/-- The `success: false` envelope for a missing or non-string `content`. -/
def contentValidationError : TodoResponse :=
  { success := false, data := none, message := none
    error := some "contentフィールドは必須で、文字列である必要があります" }

/-- The `success: false` envelope for a missing path identifier. -/
def idRequiredError : TodoResponse :=
  { success := false, data := none, message := none
    error := some "TodoアイテムのIDが必要です" }

/-- The envelope returned by `handleCreateTodo`'s own `catch`, reached
when anything inside its `try` throws: a `JSON.parse` failure, or the
property access `todoData.content` on a body that parsed to JSON `null`. -/
def createFailedError : TodoResponse :=
  { success := false, data := none, message := none
    error := some "Todoアイテムの作成に失敗しました" }

/-- The envelope returned by `handleUpdateTodo`'s own `catch`, reached
when anything inside its `try` throws: a `JSON.parse` failure, or the
property access `updateData.content` on a body that parsed to JSON `null`. -/
def updateFailedError : TodoResponse :=
  { success := false, data := none, message := none
    error := some "Todoアイテムの更新に失敗しました" }

/-- `handleGetTodos` of `todo-processor/handler.ts`: unconditionally
returns the two-element mock list. -/
def handleGetTodos (now : String)
    (_event : APIGatewayProxyEvent) : TodoResponse :=
  let mockTodos : List TodoItem :=
    [{ id := some "1", content := "サンプルTodo 1", isDone := false
       createdAt := some now, updatedAt := some now },
     { id := some "2", content := "サンプルTodo 2", isDone := true
       createdAt := some now, updatedAt := some now }]
  { success := true, data := some (.items mockTodos)
    message := some "Todoアイテムの取得に成功しました", error := none }

/-- `handleCreateTodo` of `todo-processor/handler.ts`: a falsy body yields
the body-required error; a `JSON.parse` exception, like the TypeError
thrown by `todoData.content` when the body parsed to JSON `null`, is
caught by the function's `try`/`catch` and yields the creation-failure
envelope; an invalid `content` field yields the validation error; and
otherwise a fresh item is fabricated. -/
def handleCreateTodo (parseJson : String → Option Json) (now : String)
    (nowMs : Nat) (rand : String)
    (event : APIGatewayProxyEvent) : TodoResponse :=
  match event.body with
  | none => bodyRequiredError
  | some s =>
    if s = "" then bodyRequiredError
    else
      match parseJson s with
      | none => createFailedError
      | some todoData =>
        if todoData.isNull then createFailedError
        else if contentFieldValid (getField todoData "content") then
          match getField todoData "content" with
          | some (.str c) =>
            { success := true
              data := some (.item
                { id := some (generateUniqueId nowMs rand)
                  content := c
                  isDone := jsFieldTruthy todoData "isDone"
                  createdAt := some now
                  updatedAt := some now })
              message := some "Todoアイテムの作成に成功しました"
              error := none }
          | _ => contentValidationError
        else contentValidationError

/-- `handleUpdateTodo` of `todo-processor/handler.ts`: a falsy path id or
body yields the corresponding error; a `JSON.parse` exception, like the
TypeError thrown by `updateData.content` (line 251) when the body parsed
to JSON `null`, is caught by the function's `try`/`catch` and yields the
update-failure envelope; and otherwise a fabricated item echoes the
supplied fields (with JS `||` defaults) over a hard-coded creation
timestamp. -/
def handleUpdateTodo (parseJson : String → Option Json) (now : String)
    (event : APIGatewayProxyEvent) : TodoResponse :=
  match pathId event with
  | none => idRequiredError
  | some todoId =>
    if todoId = "" then idRequiredError
    else
      match event.body with
      | none => bodyRequiredError
      | some s =>
        if s = "" then bodyRequiredError
        else
          match parseJson s with
          | none => updateFailedError
          | some updateData =>
            if updateData.isNull then updateFailedError
            else
            { success := true
              data := some (.item
                { id := some todoId
                  content := jsFieldOr updateData "content" "デフォルトコンテンツ"
                  isDone := jsFieldTruthy updateData "isDone"
                  createdAt := some "2024-01-01T00:00:00.000Z"
                  updatedAt := some now })
              message := some "Todoアイテムの更新に成功しました"
              error := none }

/-- `handleDeleteTodo` of `todo-processor/handler.ts`. -/
def handleDeleteTodo (event : APIGatewayProxyEvent) : TodoResponse :=
  match pathId event with
  | none => idRequiredError
  | some todoId =>
    if todoId = "" then idRequiredError
    else
      { success := true, data := none
        message := some ("Todoアイテム（ID: " ++ todoId ++ "）の削除に成功しました")
        error := none }

/-- `createErrorResponse` of `todo-processor/handler.ts`. -/
def createErrorResponse (statusCode : Nat) (message : String)
    (headers : List (String × String)) (now : String) : APIGatewayProxyResult :=
  { statusCode := statusCode
    headers := headers
    body := .json (.obj
      [("success", .bool false),
       ("error", .str message),
       ("timestamp", .str now),
       ("statusCode", .num (statusCode : Int))]) }

/-- `JSON.stringify` of a `TodoItem` object literal: fields in insertion
order, `undefined` fields dropped. -/
def encodeTodoItem (t : TodoItem) : Json :=
  .obj ((match t.id with | some i => [("id", Json.str i)] | none => []) ++
    [("content", Json.str t.content), ("isDone", Json.bool t.isDone)] ++
    (match t.createdAt with | some c => [("createdAt", Json.str c)] | none => []) ++
    (match t.updatedAt with | some u => [("updatedAt", Json.str u)] | none => []))

/-- `JSON.stringify` of a `TodoResponse` payload. -/
def encodeTodoData : TodoData → Json
  | .item t => encodeTodoItem t
  | .items l => .arr (l.map encodeTodoItem)

/-- `JSON.stringify` of a `TodoResponse` envelope: `undefined` fields
dropped. -/
def encodeTodoResponse (r : TodoResponse) : Json :=
  .obj ([("success", Json.bool r.success)] ++
    (match r.data with | some d => [("data", encodeTodoData d)] | none => []) ++
    (match r.message with | some m => [("message", Json.str m)] | none => []) ++
    (match r.error with | some e => [("error", Json.str e)] | none => []))

/-- The HTTP wrapping of a dispatched `TodoResponse`:
`statusCode: result.success ? 200 : 400`. -/
def wrapResult (r : TodoResponse) : APIGatewayProxyResult :=
  { statusCode := if r.success then 200 else 400
    headers := corsHeaders
    body := .json (encodeTodoResponse r) }

/-- The exported `handler` of `todo-processor/handler.ts`: an OPTIONS
preflight is answered before the verb switch, the four verbs dispatch to
their operations, and any other verb yields the 405 error response. -/
def handler (parseJson : String → Option Json) (now : String)
    (nowMs : Nat) (rand : String)
    (event : APIGatewayProxyEvent) : APIGatewayProxyResult :=
  if event.httpMethod = "OPTIONS" then
    { statusCode := 200, headers := corsHeaders, body := .raw "" }
  else if event.httpMethod = "GET" then
    wrapResult (handleGetTodos now event)
  else if event.httpMethod = "POST" then
    wrapResult (handleCreateTodo parseJson now nowMs rand event)
  else if event.httpMethod = "PUT" then
    wrapResult (handleUpdateTodo parseJson now event)
  else if event.httpMethod = "DELETE" then
    wrapResult (handleDeleteTodo event)
  else
    createErrorResponse 405 "メソッドが許可されていません" corsHeaders now

end TodoProcessor

/-- The §3 response-envelope invariant: `success=false` implies the error
field is present and the payload absent. -/
def envelopeInv (r : TodoProcessor.TodoResponse) : Prop :=
  r.success = false → r.error.isSome ∧ r.data = none

/-- The identifier of the single item carried by an envelope, if any. -/
def createdItemId (r : TodoProcessor.TodoResponse) : Option String :=
  match r.data with
  | some (.item t) => t.id
  | _ => none

/-- The content of the single item carried by an envelope, if any. -/
def createdItemContent (r : TodoProcessor.TodoResponse) : Option String :=
  match r.data with
  | some (.item t) => some t.content
  | _ => none

/-- The completion flag of the single item carried by an envelope. -/
def createdItemIsDone (r : TodoProcessor.TodoResponse) : Option Bool :=
  match r.data with
  | some (.item t) => some t.isDone
  | _ => none

/-- The creation timestamp of the single item carried by an envelope. -/
def createdItemCreatedAt (r : TodoProcessor.TodoResponse) : Option String :=
  match r.data with
  | some (.item t) => t.createdAt
  | _ => none

/-- The update timestamp of the single item carried by an envelope. -/
def createdItemUpdatedAt (r : TodoProcessor.TodoResponse) : Option String :=
  match r.data with
  | some (.item t) => t.updatedAt
  | _ => none

/-!
Arithmetic facts about `Nat.repr`, used to reason about the identifiers
produced by `TodoProcessor.generateUniqueId`: decimal representations
never contain a dash, and they determine the represented number.
-/

theorem digitChar_fin_ne_dash : ∀ d : Fin 10, Nat.digitChar d.val ≠ '-' := by
  decide

theorem digitChar_fin_val : ∀ d : Fin 10, (Nat.digitChar d.val).toNat - 48 = d.val := by
  decide

theorem digitChar_mod10_ne_dash (n : Nat) : Nat.digitChar (n % 10) ≠ '-' :=
  digitChar_fin_ne_dash ⟨n % 10, Nat.mod_lt n (by norm_num)⟩

theorem toDigitsCore_ne_dash (fuel : Nat) :
    ∀ (n : Nat) (acc : List Char), '-' ∉ acc →
      '-' ∉ Nat.toDigitsCore 10 fuel n acc := by
  induction fuel with
  | zero =>
    intro n acc h
    rw [Nat.toDigitsCore]
    exact h
  | succ f ih =>
    intro n acc h
    rw [Nat.toDigitsCore]
    split
    · intro hmem
      rcases List.mem_cons.mp hmem with h1 | h2
      · exact digitChar_mod10_ne_dash n h1.symm
      · exact h h2
    · refine ih (n / 10) (Nat.digitChar (n % 10) :: acc) ?_
      intro hmem
      rcases List.mem_cons.mp hmem with h1 | h2
      · exact digitChar_mod10_ne_dash n h1.symm
      · exact h h2

theorem toDigitsCore_acc (fuel : Nat) :
    ∀ (n : Nat) (acc : List Char),
      Nat.toDigitsCore 10 fuel n acc = Nat.toDigitsCore 10 fuel n [] ++ acc := by
  induction fuel with
  | zero =>
    intro n acc
    rw [Nat.toDigitsCore, Nat.toDigitsCore]
    simp
  | succ f ih =>
    intro n acc
    rw [Nat.toDigitsCore]
    conv_rhs => rw [Nat.toDigitsCore]
    by_cases h : n / 10 = 0
    · simp [h]
    · simp only [if_neg h]
      rw [ih (n / 10) (Nat.digitChar (n % 10) :: acc),
        ih (n / 10) [Nat.digitChar (n % 10)]]
      simp

theorem toDigitsCore_fuel :
    ∀ (n f₁ f₂ : Nat), n < f₁ → n < f₂ →
      Nat.toDigitsCore 10 f₁ n [] = Nat.toDigitsCore 10 f₂ n [] := by
  intro n
  induction n using Nat.strong_induction_on with
  | _ n ih =>
    intro f₁ f₂ h₁ h₂
    obtain ⟨a, rfl⟩ : ∃ a, f₁ = a + 1 := ⟨f₁ - 1, by omega⟩
    obtain ⟨b, rfl⟩ : ∃ b, f₂ = b + 1 := ⟨f₂ - 1, by omega⟩
    rw [Nat.toDigitsCore]
    conv_rhs => rw [Nat.toDigitsCore]
    by_cases h : n / 10 = 0
    · simp [h]
    · simp only [if_neg h]
      rw [toDigitsCore_acc a (n / 10) [Nat.digitChar (n % 10)],
        toDigitsCore_acc b (n / 10) [Nat.digitChar (n % 10)],
        ih (n / 10) (by omega) a b (by omega) (by omega)]

theorem toDigits_rec (n : Nat) :
    Nat.toDigits 10 n =
      if n < 10 then [Nat.digitChar n]
      else Nat.toDigits 10 (n / 10) ++ [Nat.digitChar (n % 10)] := by
  rw [Nat.toDigits, Nat.toDigitsCore]
  by_cases h : n < 10
  · have h0 : n / 10 = 0 := by omega
    simp [h0, h, Nat.mod_eq_of_lt h]
  · have h0 : ¬ n / 10 = 0 := by omega
    simp only [if_neg h0, if_neg h]
    rw [toDigitsCore_acc n (n / 10) [Nat.digitChar (n % 10)], Nat.toDigits,
      toDigitsCore_fuel (n / 10) n (n / 10 + 1) (by omega) (by omega)]

/-- The numeric value read back from a decimal digit character. -/
def charDigitVal (c : Char) : Nat := c.toNat - 48

/-- The numeric value read back from a decimal digit string. -/
def digitsVal (l : List Char) : Nat :=
  l.foldl (fun a c => 10 * a + charDigitVal c) 0

theorem digitsVal_toDigits : ∀ n : Nat, digitsVal (Nat.toDigits 10 n) = n := by
  intro n
  induction n using Nat.strong_induction_on with
  | _ n ih =>
    rw [toDigits_rec n]
    by_cases h : n < 10
    · have hv : charDigitVal (Nat.digitChar n) = n := digitChar_fin_val ⟨n, h⟩
      simp only [if_pos h, digitsVal, List.foldl_cons, List.foldl_nil]
      rw [hv]
      omega
    · have hv : charDigitVal (Nat.digitChar (n % 10)) = n % 10 :=
        digitChar_fin_val ⟨n % 10, Nat.mod_lt n (by norm_num)⟩
      have ihv := ih (n / 10) (by omega)
      rw [digitsVal] at ihv
      simp only [if_neg h, digitsVal, List.foldl_append, List.foldl_cons,
        List.foldl_nil]
      rw [ihv, hv]
      omega

theorem natRepr_data (n : Nat) : (Nat.repr n).data = Nat.toDigits 10 n := rfl

theorem natRepr_ne_dash (n : Nat) : '-' ∉ (Nat.repr n).data := by
  rw [natRepr_data, Nat.toDigits]
  exact toDigitsCore_ne_dash (n + 1) n [] (by simp)

theorem natRepr_inj {m n : Nat} (h : Nat.repr m = Nat.repr n) : m = n := by
  have hd : Nat.toDigits 10 m = Nat.toDigits 10 n := by
    rw [← natRepr_data m, ← natRepr_data n, h]
  have hm := digitsVal_toDigits m
  rw [hd, digitsVal_toDigits n] at hm
  exact hm.symm

theorem append_dash_inj :
    ∀ (a c b d : List Char), '-' ∉ a → '-' ∉ c →
      a ++ '-' :: b = c ++ '-' :: d → a = c ∧ b = d := by
  intro a
  induction a with
  | nil =>
    intro c b d _ hc h
    cases c with
    | nil =>
      simp only [List.nil_append, List.cons.injEq] at h
      exact ⟨rfl, h.2⟩
    | cons y ys =>
      exfalso
      simp only [List.nil_append, List.cons_append, List.cons.injEq] at h
      exact hc (List.mem_cons.mpr (Or.inl h.1))
  | cons x xs ih =>
    intro c b d ha hc h
    cases c with
    | nil =>
      exfalso
      simp only [List.nil_append, List.cons_append, List.cons.injEq] at h
      exact ha (List.mem_cons.mpr (Or.inl h.1.symm))
    | cons y ys =>
      simp only [List.cons_append, List.cons.injEq] at h
      obtain ⟨hxy, ht⟩ := h
      have ha' : '-' ∉ xs := fun hm => ha (List.mem_cons_of_mem x hm)
      have hc' : '-' ∉ ys := fun hm => hc (List.mem_cons_of_mem y hm)
      obtain ⟨h1, h2⟩ := ih ys b d ha' hc' ht
      exact ⟨by rw [hxy, h1], h2⟩

theorem string_eq_of_data {s t : String} (h : s.data = t.data) : s = t := by
  cases s
  cases t
  exact congrArg String.mk (by simpa using h)

/-- Identifiers produced by `generateUniqueId` determine the clock reading
and the random suffix: the decimal timestamp is dash-free, so the first
dash after the `todo-` prefix delimits it unambiguously. -/
theorem generateUniqueId_inj (m n : Nat) (r r' : String)
    (h : TodoProcessor.generateUniqueId m r = TodoProcessor.generateUniqueId n r') :
    m = n ∧ r = r' := by
  unfold TodoProcessor.generateUniqueId at h
  have hd := congrArg String.data h
  simp only [String.data_append, List.append_assoc, List.singleton_append] at hd
  have hcancel := List.append_cancel_left hd
  obtain ⟨h1, h2⟩ := append_dash_inj (Nat.repr m).data (Nat.repr n).data
    r.data r'.data (natRepr_ne_dash m) (natRepr_ne_dash n) hcancel
  exact ⟨natRepr_inj (string_eq_of_data h1), string_eq_of_data h2⟩

theorem generateUniqueId_ne_empty (nowMs : Nat) (rand : String) :
    TodoProcessor.generateUniqueId nowMs rand ≠ "" := by
  intro h
  have hd := congrArg String.data h
  simp only [TodoProcessor.generateUniqueId, String.data_append] at hd
  simp at hd

/-- A value looked up by `getField` only exists on an object receiver, so
the receiver is in particular not JSON `null`. -/
theorem isNull_false_of_getField {j : Json} {k : String} {v : Json}
    (h : getField j k = some v) : j.isNull = false := by
  cases j <;> simp_all [Json.isNull, getField]

/-- `HelloWorld.handler` is exactly the fulfilled projection of the
promise-level `HelloWorld.handlerRun`: whenever the invocation settles
with a response, the two agree. -/
theorem handlerRun_response_eq (parseJson : String → Option Json)
    (envFunctionName : Option String) (now : String)
    (event : APIGatewayProxyEvent) (r : APIGatewayProxyResult)
    (h : HelloWorld.handlerRun parseJson envFunctionName now event =
      .response r) :
    HelloWorld.handler parseJson envFunctionName now event = r := by
  unfold HelloWorld.handlerRun at h
  unfold HelloWorld.handler
  by_cases hg : event.httpMethod = "GET"
  · simp [hg] at h ⊢
    exact h
  · by_cases hpost : event.httpMethod = "POST"
    · simp [hg, hpost] at h ⊢
      unfold HelloWorld.handlePostRequestRun at h
      unfold HelloWorld.handlePostRequest
      rcases hb : event.body with _ | s
      · simp [hb, Json.isNull] at h ⊢
        exact h
      · by_cases hse : s = ""
        · simp [hb, hse, Json.isNull] at h ⊢
          exact h
        · rcases hps : parseJson s with _ | j
          · simp [hb, hse, hps] at h ⊢
            exact h
          · by_cases hnull : j.isNull = true
            · simp [hb, hse, hps, hnull] at h
            · simp [hb, hse, hps, hnull] at h ⊢
              exact h
    · simp [hg, hpost] at h ⊢
      exact h

/-!
Concrete fixtures used by the witnesses and counterexamples below.
-/

/-- A parse oracle under which every body is malformed JSON. -/
def parseNone : String → Option Json := fun _ => none

/-- A parse oracle yielding JSON `null`, as `JSON.parse "null"` does. -/
def parseNull : String → Option Json := fun _ => some .null

/-- A parse oracle yielding `{"name": "Alice", "message": "Hi"}`. -/
def parseAliceHi : String → Option Json :=
  fun _ => some (.obj [("name", .str "Alice"), ("message", .str "Hi")])

/-- A parse oracle yielding `{"content": "task a"}`. -/
def parseTaskA : String → Option Json :=
  fun _ => some (.obj [("content", .str "task a")])

/-- A parse oracle yielding `{"content": "task b"}`. -/
def parseTaskB : String → Option Json :=
  fun _ => some (.obj [("content", .str "task b")])

/-- A parse oracle yielding `{"content": ""}`. -/
def parseEmptyContent : String → Option Json :=
  fun _ => some (.obj [("content", .str "")])

/-- A parse oracle yielding `{"content": "updated", "isDone": true}`. -/
def parseUpdateBody : String → Option Json :=
  fun _ => some (.obj [("content", .str "updated"), ("isDone", .bool true)])

def evOptionsHello : APIGatewayProxyEvent :=
  { httpMethod := "OPTIONS", path := "/hello", queryStringParameters := none
    pathParameters := none, body := none }

def evGetAlice : APIGatewayProxyEvent :=
  { httpMethod := "GET", path := "/hello"
    queryStringParameters := some [("name", "Alice")]
    pathParameters := none, body := none }

def evPostBodyX : APIGatewayProxyEvent :=
  { httpMethod := "POST", path := "/hello", queryStringParameters := none
    pathParameters := none, body := some "x" }

def evPostBodyNull : APIGatewayProxyEvent :=
  { httpMethod := "POST", path := "/hello", queryStringParameters := none
    pathParameters := none, body := some "null" }

def evPostNoBody : APIGatewayProxyEvent :=
  { httpMethod := "POST", path := "/todos", queryStringParameters := none
    pathParameters := none, body := none }

def evPostBodyA : APIGatewayProxyEvent :=
  { httpMethod := "POST", path := "/todos", queryStringParameters := none
    pathParameters := none, body := some "a" }

def evPostBodyB : APIGatewayProxyEvent :=
  { httpMethod := "POST", path := "/todos", queryStringParameters := none
    pathParameters := none, body := some "b" }

def evPutNoId : APIGatewayProxyEvent :=
  { httpMethod := "PUT", path := "/todos", queryStringParameters := none
    pathParameters := none, body := some "u" }

def evPatch : APIGatewayProxyEvent :=
  { httpMethod := "PATCH", path := "/todos", queryStringParameters := none
    pathParameters := none, body := none }

def evPutId1 : APIGatewayProxyEvent :=
  { httpMethod := "PUT", path := "/todos/1", queryStringParameters := none
    pathParameters := some [("id", "1")], body := some "e" }

def evPutId7 : APIGatewayProxyEvent :=
  { httpMethod := "PUT", path := "/todos/7", queryStringParameters := none
    pathParameters := some [("id", "7")], body := some "u" }

/-- C1 counterexample: the claim says an OPTIONS request to either handler
returns status 200, but the greeting handler has no OPTIONS branch: its
switch falls through to the 405 default on a concrete OPTIONS event. -/
theorem c1_counterexample :
    (HelloWorld.handler parseNone none "t" evOptionsHello).statusCode = 405 ∧
    (HelloWorld.handler parseNone none "t" evOptionsHello).statusCode ≠ 200 := by
  constructor
  · rfl
  · decide

/-- C1 (amended): an OPTIONS request to the todo handler returns status 200
with an empty raw body, while the greeting handler answers OPTIONS with its
405 method-not-allowed response. -/
theorem c1_options_amended (parseJson : String → Option Json)
    (envFunctionName : Option String) (now : String) (nowMs : Nat)
    (rand : String) (event : APIGatewayProxyEvent)
    (h : event.httpMethod = "OPTIONS") :
    (TodoProcessor.handler parseJson now nowMs rand event).statusCode = 200 ∧
    (TodoProcessor.handler parseJson now nowMs rand event).body = .raw "" ∧
    (HelloWorld.handler parseJson envFunctionName now event).statusCode = 405 := by
  refine ⟨?_, ?_, ?_⟩ <;>
    simp [TodoProcessor.handler, HelloWorld.handler,
      HelloWorld.createErrorResponse, h]

theorem c1_options_amended_witness :
    (TodoProcessor.handler parseNone "t" 0 "r" evOptionsHello).statusCode = 200 ∧
    (TodoProcessor.handler parseNone "t" 0 "r" evOptionsHello).body = .raw "" ∧
    (HelloWorld.handler parseNone none "t" evOptionsHello).statusCode = 405 :=
  c1_options_amended parseNone none "t" 0 "r" evOptionsHello rfl

/-- C2: for every inbound event and every todo operation, and for the todo
handler's error-response constructor, a `success=false` envelope carries an
error and no payload. -/
theorem c2_envelope_invariant (parseJson : String → Option Json)
    (now : String) (nowMs : Nat) (rand : String)
    (event : APIGatewayProxyEvent) :
    envelopeInv (TodoProcessor.handleGetTodos now event) ∧
    envelopeInv (TodoProcessor.handleCreateTodo parseJson now nowMs rand event) ∧
    envelopeInv (TodoProcessor.handleUpdateTodo parseJson now event) ∧
    envelopeInv (TodoProcessor.handleDeleteTodo event) ∧
    (∀ (statusCode : Nat) (message : String)
      (headers : List (String × String)) (j : Json),
      (TodoProcessor.createErrorResponse statusCode message headers now).body = .json j →
      getField j "success" = some (.bool false) ∧
      (getField j "error").isSome ∧ getField j "data" = none) := by
  refine ⟨?_, ?_, ?_, ?_, ?_⟩
  · intro h
    simp [TodoProcessor.handleGetTodos] at h
  · unfold TodoProcessor.handleCreateTodo
    repeat' split
    all_goals
      simp [envelopeInv, TodoProcessor.bodyRequiredError,
        TodoProcessor.contentValidationError, TodoProcessor.createFailedError]
  · unfold TodoProcessor.handleUpdateTodo
    repeat' split
    all_goals
      simp [envelopeInv, TodoProcessor.bodyRequiredError,
        TodoProcessor.idRequiredError, TodoProcessor.updateFailedError]
  · unfold TodoProcessor.handleDeleteTodo
    repeat' split
    all_goals
      simp [envelopeInv, TodoProcessor.idRequiredError]
  · intro statusCode message headers j hj
    simp only [TodoProcessor.createErrorResponse, ResultBody.json.injEq] at hj
    subst hj
    refine ⟨rfl, ?_, rfl⟩
    rfl

theorem c2_envelope_invariant_witness :
    (TodoProcessor.handleCreateTodo parseNone "t" 0 "r" evPostNoBody).error.isSome ∧
    (TodoProcessor.handleCreateTodo parseNone "t" 0 "r" evPostNoBody).data = none :=
  (c2_envelope_invariant parseNone "t" 0 "r" evPostNoBody).2.1 rfl

/-- C3: every GET to the greeting handler yields status 200; the message is
`Hello World!` when no `name` query parameter is present, and otherwise the
body's message contains the supplied name verbatim. -/
theorem c3_get_greeting (parseJson : String → Option Json)
    (envFunctionName : Option String) (now : String)
    (event : APIGatewayProxyEvent) (h : event.httpMethod = "GET") :
    (HelloWorld.handler parseJson envFunctionName now event).statusCode = 200 ∧
    (queryName event = none →
      responseMessage (HelloWorld.handler parseJson envFunctionName now event) =
        some (.str "Hello World!")) ∧
    (∀ name, queryName event = some name →
      ∃ m, responseMessage (HelloWorld.handler parseJson envFunctionName now event) =
        some (.str m) ∧ name.data <:+: m.data) := by
  have hh : HelloWorld.handler parseJson envFunctionName now event =
      HelloWorld.handleGetRequest envFunctionName now event := by
    simp [HelloWorld.handler, h]
  rw [hh]
  refine ⟨rfl, ?_, ?_⟩
  · intro hq
    simp [HelloWorld.handleGetRequest, responseMessage, getField,
      lookupAssoc, jsOptStrOr, hq]
  · intro name hq
    by_cases hempty : name = ""
    · refine ⟨"Hello World!", ?_, ?_⟩
      · simp [HelloWorld.handleGetRequest, responseMessage, getField,
          lookupAssoc, jsOptStrOr, hq, hempty]
      · subst hempty
        exact ⟨[], ("Hello World!" : String).data, by simp⟩
    · refine ⟨"Hello " ++ name ++ "!", ?_, ?_⟩
      · simp [HelloWorld.handleGetRequest, responseMessage, getField,
          lookupAssoc, jsOptStrOr, hq, hempty]
      · refine ⟨("Hello " : String).data, ("!" : String).data, ?_⟩
        simp [String.data_append]

theorem c3_get_greeting_witness :
    (HelloWorld.handler parseNone none "t" evGetAlice).statusCode = 200 ∧
    responseMessage (HelloWorld.handler parseNone none "t" evGetAlice) =
      some (.str "Hello Alice!") ∧
    ("Alice" : String).data <:+: ("Hello Alice!" : String).data :=
  ⟨(c3_get_greeting parseNone none "t" evGetAlice rfl).1, rfl, by decide⟩

/-- C4 counterexample: a POST whose body parses as JSON (to `null`) does
not yield a 200 response: `requestBody.name` throws a TypeError on `null`
and the un-awaited promise rejection escapes the handler's catch, so the
invocation rejects without producing any response. -/
theorem c4_counterexample :
    HelloWorld.handlerRun parseNull none "t" evPostBodyNull =
      AsyncOutcome.rejected ∧
    outcomeStatus (HelloWorld.handlerRun parseNull none "t" evPostBodyNull) ≠
      some 200 := by
  refine ⟨rfl, ?_⟩
  decide

/-- C4 (amended): a POST to the greeting handler with a present but
malformed body yields a 400 response; a body parsing to a JSON value
other than `null` yields a 200 response whose message combines the
optional `name` and `message` fields under the code's defaults (`World`,
`Hello`); a body parsing to JSON `null` makes the invocation reject
without producing a response. -/
theorem c4_post_greeting (parseJson : String → Option Json)
    (envFunctionName : Option String) (now : String)
    (event : APIGatewayProxyEvent) (s : String)
    (h : event.httpMethod = "POST") (hb : event.body = some s) (hs : s ≠ "") :
    (parseJson s = none →
      outcomeStatus (HelloWorld.handlerRun parseJson envFunctionName now event) =
        some 400) ∧
    (∀ j, parseJson s = some j → j.isNull = false →
      outcomeStatus (HelloWorld.handlerRun parseJson envFunctionName now event) =
        some 200 ∧
      outcomeMessage (HelloWorld.handlerRun parseJson envFunctionName now event) =
        some (.str (jsFieldOr j "message" "Hello" ++ " " ++
          jsFieldOr j "name" "World" ++ "!"))) ∧
    (∀ j nm mg, parseJson s = some j →
      getField j "name" = some (.str nm) → nm ≠ "" →
      getField j "message" = some (.str mg) → mg ≠ "" →
      outcomeMessage (HelloWorld.handlerRun parseJson envFunctionName now event) =
        some (.str (mg ++ " " ++ nm ++ "!"))) ∧
    (parseJson s = some .null →
      HelloWorld.handlerRun parseJson envFunctionName now event =
        AsyncOutcome.rejected) := by
  have hh : HelloWorld.handlerRun parseJson envFunctionName now event =
      HelloWorld.handlePostRequestRun parseJson envFunctionName now event := by
    simp [HelloWorld.handlerRun, h]
  rw [hh]
  refine ⟨?_, ?_, ?_, ?_⟩
  · intro hp
    simp [HelloWorld.handlePostRequestRun, hb, hs, hp, outcomeStatus,
      HelloWorld.createErrorResponse]
  · intro j hp hnn
    constructor <;>
      simp [HelloWorld.handlePostRequestRun, hb, hs, hp, hnn, outcomeStatus,
        outcomeMessage, responseMessage, getField, lookupAssoc]
  · intro j nm mg hp hnm hnm0 hmg hmg0
    have hnn : j.isNull = false := isNull_false_of_getField hnm
    have e1 : jsFieldOr j "message" "Hello" = mg := by
      simp [jsFieldOr, hmg, truthy, jsToString, hmg0]
    have e2 : jsFieldOr j "name" "World" = nm := by
      simp [jsFieldOr, hnm, truthy, jsToString, hnm0]
    simp [HelloWorld.handlePostRequestRun, hb, hs, hp, hnn, outcomeMessage,
      responseMessage, getField, lookupAssoc, e1, e2]
  · intro hp
    simp [HelloWorld.handlePostRequestRun, hb, hs, hp, Json.isNull]

theorem c4_post_greeting_witness :
    outcomeStatus (HelloWorld.handlerRun parseNone none "t" evPostBodyX) =
      some 400 ∧
    outcomeStatus (HelloWorld.handlerRun parseAliceHi none "t" evPostBodyX) =
      some 200 ∧
    outcomeMessage (HelloWorld.handlerRun parseAliceHi none "t" evPostBodyX) =
      some (.str "Hi Alice!") ∧
    HelloWorld.handlerRun parseNull none "t" evPostBodyNull =
      AsyncOutcome.rejected :=
  ⟨(c4_post_greeting parseNone none "t" evPostBodyX "x" rfl rfl
      (by decide)).1 rfl,
   ((c4_post_greeting parseAliceHi none "t" evPostBodyX "x" rfl rfl
      (by decide)).2.1 (Json.obj [("name", .str "Alice"), ("message", .str "Hi")])
      rfl rfl).1,
   (c4_post_greeting parseAliceHi none "t" evPostBodyX "x" rfl rfl
      (by decide)).2.2.1 (Json.obj [("name", .str "Alice"), ("message", .str "Hi")])
      "Alice" "Hi" rfl rfl (by decide) rfl (by decide),
   (c4_post_greeting parseNull none "t" evPostBodyNull "null" rfl rfl
      (by decide)).2.2.2 rfl⟩

/-- C5: a POST to the todo handler with an absent body, or with a parsed
body whose `content` field is missing, empty or not a string, makes the
create operation return `success=false` with an error, and the handler
surfaces it with HTTP status 400. -/
theorem c5_create_invalid (parseJson : String → Option Json) (now : String)
    (nowMs : Nat) (rand : String) (event : APIGatewayProxyEvent)
    (h : event.httpMethod = "POST")
    (hbad : event.body = none ∨ event.body = some "" ∨
      (∃ s j, event.body = some s ∧ parseJson s = some j ∧
        TodoProcessor.contentFieldValid (getField j "content") = false)) :
    (TodoProcessor.handleCreateTodo parseJson now nowMs rand event).success = false ∧
    (TodoProcessor.handleCreateTodo parseJson now nowMs rand event).error.isSome ∧
    (TodoProcessor.handler parseJson now nowMs rand event).statusCode = 400 := by
  have hres :
      (TodoProcessor.handleCreateTodo parseJson now nowMs rand event).success = false ∧
      (TodoProcessor.handleCreateTodo parseJson now nowMs rand event).error.isSome := by
    rcases hbad with hb | hb | ⟨s, j, hb, hp, hcv⟩
    · simp [TodoProcessor.handleCreateTodo, hb, TodoProcessor.bodyRequiredError]
    · simp [TodoProcessor.handleCreateTodo, hb, TodoProcessor.bodyRequiredError]
    · by_cases hse : s = ""
      · simp [TodoProcessor.handleCreateTodo, hb, hse,
          TodoProcessor.bodyRequiredError]
      · simp only [TodoProcessor.handleCreateTodo, hb, if_neg hse, hp, hcv,
          Bool.false_eq_true, if_false]
        split <;>
          simp [TodoProcessor.createFailedError,
            TodoProcessor.contentValidationError]
  refine ⟨hres.1, hres.2, ?_⟩
  simp [TodoProcessor.handler, h, TodoProcessor.wrapResult, hres.1]

theorem c5_create_invalid_witness :
    (TodoProcessor.handleCreateTodo parseNone "t" 0 "r" evPostNoBody).success = false ∧
    (TodoProcessor.handleCreateTodo parseNone "t" 0 "r" evPostNoBody).error.isSome ∧
    (TodoProcessor.handler parseNone "t" 0 "r" evPostNoBody).statusCode = 400 :=
  c5_create_invalid parseNone "t" 0 "r" evPostNoBody rfl (Or.inl rfl)

/-- C6 counterexample: the generated identifier depends only on the clock
reading and the random suffix, so two valid create calls that observe the
same `Date.now()` value and the same `Math.random()` suffix receive the
same identifier even though their contents differ — identifiers are not
unconditionally distinct across calls. -/
theorem c6_counterexample :
    createdItemContent (TodoProcessor.handleCreateTodo parseTaskA "t1" 5 "abc" evPostBodyA) =
      some "task a" ∧
    createdItemContent (TodoProcessor.handleCreateTodo parseTaskB "t2" 5 "abc" evPostBodyB) =
      some "task b" ∧
    createdItemId (TodoProcessor.handleCreateTodo parseTaskA "t1" 5 "abc" evPostBodyA) =
      some "todo-5-abc" ∧
    createdItemId (TodoProcessor.handleCreateTodo parseTaskB "t2" 5 "abc" evPostBodyB) =
      createdItemId (TodoProcessor.handleCreateTodo parseTaskA "t1" 5 "abc" evPostBodyA) :=
  ⟨rfl, rfl, rfl, rfl⟩

/-- C6 (amended): a create call whose parsed body has a non-empty string
`content` returns `success=true` with an item echoing that content and a
non-empty identifier; the identifiers of two such calls are distinct
whenever the calls differ in clock reading or random suffix. -/
theorem c6_create_valid
    (parseJson parseJson' : String → Option Json) (now now' : String)
    (nowMs nowMs' : Nat) (rand rand' : String)
    (event event' : APIGatewayProxyEvent) (s s' : String) (j j' : Json)
    (c c' : String)
    (hb : event.body = some s) (hs : s ≠ "") (hp : parseJson s = some j)
    (hc : getField j "content" = some (.str c)) (hc0 : c ≠ "")
    (hb' : event'.body = some s') (hs' : s' ≠ "")
    (hp' : parseJson' s' = some j')
    (hc' : getField j' "content" = some (.str c')) (hc0' : c' ≠ "") :
    (TodoProcessor.handleCreateTodo parseJson now nowMs rand event).success = true ∧
    createdItemContent
      (TodoProcessor.handleCreateTodo parseJson now nowMs rand event) = some c ∧
    (∀ i, createdItemId
      (TodoProcessor.handleCreateTodo parseJson now nowMs rand event) = some i →
      i ≠ "") ∧
    ((nowMs, rand) ≠ (nowMs', rand') →
      ∀ i i', createdItemId
        (TodoProcessor.handleCreateTodo parseJson now nowMs rand event) = some i →
        createdItemId
          (TodoProcessor.handleCreateTodo parseJson' now' nowMs' rand' event') = some i' →
        i ≠ i') := by
  have hnn : j.isNull = false := isNull_false_of_getField hc
  have hnn' : j'.isNull = false := isNull_false_of_getField hc'
  have hid : createdItemId
      (TodoProcessor.handleCreateTodo parseJson now nowMs rand event) =
      some (TodoProcessor.generateUniqueId nowMs rand) := by
    simp [TodoProcessor.handleCreateTodo, hb, hs, hp, hc, hnn,
      TodoProcessor.contentFieldValid, hc0, createdItemId]
  have hid' : createdItemId
      (TodoProcessor.handleCreateTodo parseJson' now' nowMs' rand' event') =
      some (TodoProcessor.generateUniqueId nowMs' rand') := by
    simp [TodoProcessor.handleCreateTodo, hb', hs', hp', hc', hnn',
      TodoProcessor.contentFieldValid, hc0', createdItemId]
  refine ⟨?_, ?_, ?_, ?_⟩
  · simp [TodoProcessor.handleCreateTodo, hb, hs, hp, hc, hnn,
      TodoProcessor.contentFieldValid, hc0]
  · simp [TodoProcessor.handleCreateTodo, hb, hs, hp, hc, hnn,
      TodoProcessor.contentFieldValid, hc0, createdItemContent]
  · intro i hi
    rw [hid] at hi
    have hgi := Option.some.inj hi
    rw [← hgi]
    exact generateUniqueId_ne_empty nowMs rand
  · intro hne i i' hi hi'
    rw [hid] at hi
    rw [hid'] at hi'
    have e1 := Option.some.inj hi
    have e2 := Option.some.inj hi'
    intro heq
    obtain ⟨h1, h2⟩ := generateUniqueId_inj nowMs nowMs' rand rand'
      (by rw [e1, e2, heq])
    exact hne (by rw [h1, h2])

theorem c6_create_valid_witness :
    (TodoProcessor.handleCreateTodo parseTaskA "t1" 5 "abc" evPostBodyA).success = true ∧
    createdItemContent
      (TodoProcessor.handleCreateTodo parseTaskA "t1" 5 "abc" evPostBodyA) =
      some "task a" ∧
    ("todo-5-abc" : String) ≠ "" ∧
    ("todo-5-abc" : String) ≠ "todo-5-xyz" :=
  ⟨(c6_create_valid parseTaskA parseTaskB "t1" "t2" 5 5 "abc" "xyz"
      evPostBodyA evPostBodyB "a" "b"
      (Json.obj [("content", .str "task a")])
      (Json.obj [("content", .str "task b")]) "task a" "task b"
      rfl (by decide) rfl rfl (by decide)
      rfl (by decide) rfl rfl (by decide)).1,
   (c6_create_valid parseTaskA parseTaskB "t1" "t2" 5 5 "abc" "xyz"
      evPostBodyA evPostBodyB "a" "b"
      (Json.obj [("content", .str "task a")])
      (Json.obj [("content", .str "task b")]) "task a" "task b"
      rfl (by decide) rfl rfl (by decide)
      rfl (by decide) rfl rfl (by decide)).2.1,
   (c6_create_valid parseTaskA parseTaskB "t1" "t2" 5 5 "abc" "xyz"
      evPostBodyA evPostBodyB "a" "b"
      (Json.obj [("content", .str "task a")])
      (Json.obj [("content", .str "task b")]) "task a" "task b"
      rfl (by decide) rfl rfl (by decide)
      rfl (by decide) rfl rfl (by decide)).2.2.1 "todo-5-abc" rfl,
   (c6_create_valid parseTaskA parseTaskB "t1" "t2" 5 5 "abc" "xyz"
      evPostBodyA evPostBodyB "a" "b"
      (Json.obj [("content", .str "task a")])
      (Json.obj [("content", .str "task b")]) "task a" "task b"
      rfl (by decide) rfl rfl (by decide)
      rfl (by decide) rfl rfl (by decide)).2.2.2 (by decide)
      "todo-5-abc" "todo-5-xyz" rfl rfl⟩

/-- C7: a PUT or DELETE request whose path parameters carry no identifier
makes the update and delete operations return `success=false`. -/
theorem c7_missing_id (parseJson : String → Option Json) (now : String)
    (event : APIGatewayProxyEvent) (h : pathId event = none) :
    (TodoProcessor.handleUpdateTodo parseJson now event).success = false ∧
    (TodoProcessor.handleDeleteTodo event).success = false := by
  constructor <;>
    simp [TodoProcessor.handleUpdateTodo, TodoProcessor.handleDeleteTodo,
      h, TodoProcessor.idRequiredError]

theorem c7_missing_id_witness :
    (TodoProcessor.handleUpdateTodo parseNone "t" evPutNoId).success = false ∧
    (TodoProcessor.handleDeleteTodo evPutNoId).success = false :=
  c7_missing_id parseNone "t" evPutNoId rfl

/-- C8: a method outside GET/POST makes the greeting handler answer 405,
and a method outside GET/POST/PUT/DELETE/OPTIONS makes the todo handler
answer 405. -/
theorem c8_unsupported_method (parseJson : String → Option Json)
    (envFunctionName : Option String) (now : String) (nowMs : Nat)
    (rand : String) (event : APIGatewayProxyEvent)
    (h1 : event.httpMethod ≠ "GET") (h2 : event.httpMethod ≠ "POST") :
    (HelloWorld.handler parseJson envFunctionName now event).statusCode = 405 ∧
    (event.httpMethod ≠ "PUT" → event.httpMethod ≠ "DELETE" →
      event.httpMethod ≠ "OPTIONS" →
      (TodoProcessor.handler parseJson now nowMs rand event).statusCode = 405) := by
  constructor
  · simp [HelloWorld.handler, h1, h2, HelloWorld.createErrorResponse]
  · intro h3 h4 h5
    simp [TodoProcessor.handler, h1, h2, h3, h4, h5,
      TodoProcessor.createErrorResponse]

theorem c8_unsupported_method_witness :
    (HelloWorld.handler parseNone none "t" evPatch).statusCode = 405 ∧
    (TodoProcessor.handler parseNone "t" 0 "r" evPatch).statusCode = 405 :=
  ⟨(c8_unsupported_method parseNone none "t" 0 "r" evPatch
      (by decide) (by decide)).1,
   (c8_unsupported_method parseNone none "t" 0 "r" evPatch
      (by decide) (by decide)).2 (by decide) (by decide) (by decide)⟩

/-- C9 counterexample: two update behaviours contradict the claim's
unconditional success-with-echo on parsed bodies: a supplied empty-string
`content` is falsy in JS and is replaced by the default rather than
echoed, and a body parsing to JSON `null` makes `updateData.content`
throw, the operation's catch returning `success=false` instead of a
fabricated item. -/
theorem c9_counterexample :
    (TodoProcessor.handleUpdateTodo parseEmptyContent "t" evPutId1).success = true ∧
    getField (Json.obj [("content", Json.str "")]) "content" =
      some (.str "") ∧
    createdItemContent (TodoProcessor.handleUpdateTodo parseEmptyContent "t" evPutId1) =
      some "デフォルトコンテンツ" ∧
    createdItemContent (TodoProcessor.handleUpdateTodo parseEmptyContent "t" evPutId1) ≠
      some "" ∧
    parseNull "e" = some Json.null ∧
    (TodoProcessor.handleUpdateTodo parseNull "t" evPutId1).success = false := by
  refine ⟨rfl, rfl, rfl, ?_, rfl, rfl⟩
  decide

/-- C9 (amended): a PUT with a path identifier and a body parsing to a
JSON value other than `null` succeeds with an item whose id is the path
identifier, whose content echoes a supplied non-empty string content (an
empty or missing content is replaced by the default), whose completion
flag echoes a supplied boolean `isDone`, whose creation timestamp is the
hard-coded `2024-01-01T00:00:00.000Z` and whose update timestamp is the
current clock reading; a body parsing to JSON `null` makes the
operation's catch return `success=false` with an error. -/
theorem c9_update (parseJson : String → Option Json) (now : String)
    (event : APIGatewayProxyEvent) (tid s : String) (j : Json)
    (hid : pathId event = some tid) (htid : tid ≠ "")
    (hb : event.body = some s) (hs : s ≠ "") (hp : parseJson s = some j) :
    (j.isNull = false →
      (TodoProcessor.handleUpdateTodo parseJson now event).success = true ∧
      createdItemId (TodoProcessor.handleUpdateTodo parseJson now event) = some tid ∧
      (∀ c, getField j "content" = some (.str c) → c ≠ "" →
        createdItemContent (TodoProcessor.handleUpdateTodo parseJson now event) = some c) ∧
      ((getField j "content" = none ∨ getField j "content" = some (.str "")) →
        createdItemContent (TodoProcessor.handleUpdateTodo parseJson now event) =
          some "デフォルトコンテンツ") ∧
      (∀ b, getField j "isDone" = some (.bool b) →
        createdItemIsDone (TodoProcessor.handleUpdateTodo parseJson now event) = some b) ∧
      createdItemCreatedAt (TodoProcessor.handleUpdateTodo parseJson now event) =
        some "2024-01-01T00:00:00.000Z" ∧
      createdItemUpdatedAt (TodoProcessor.handleUpdateTodo parseJson now event) =
        some now) ∧
    (j.isNull = true →
      (TodoProcessor.handleUpdateTodo parseJson now event).success = false ∧
      (TodoProcessor.handleUpdateTodo parseJson now event).error.isSome) := by
  constructor
  · intro hnn
    refine ⟨?_, ?_, ?_, ?_, ?_, ?_, ?_⟩
    · simp [TodoProcessor.handleUpdateTodo, hid, htid, hb, hs, hp, hnn]
    · simp [TodoProcessor.handleUpdateTodo, hid, htid, hb, hs, hp, hnn,
        createdItemId]
    · intro c hc hc0
      have e : jsFieldOr j "content" "デフォルトコンテンツ" = c := by
        simp [jsFieldOr, hc, truthy, jsToString, hc0]
      simp [TodoProcessor.handleUpdateTodo, hid, htid, hb, hs, hp, hnn,
        createdItemContent, e]
    · intro hc
      have e : jsFieldOr j "content" "デフォルトコンテンツ" = "デフォルトコンテンツ" := by
        rcases hc with hc | hc <;> simp [jsFieldOr, hc, truthy]
      simp [TodoProcessor.handleUpdateTodo, hid, htid, hb, hs, hp, hnn,
        createdItemContent, e]
    · intro b hbD
      have e : jsFieldTruthy j "isDone" = b := by
        simp [jsFieldTruthy, hbD, truthy]
      simp [TodoProcessor.handleUpdateTodo, hid, htid, hb, hs, hp, hnn,
        createdItemIsDone, e]
    · simp [TodoProcessor.handleUpdateTodo, hid, htid, hb, hs, hp, hnn,
        createdItemCreatedAt]
    · simp [TodoProcessor.handleUpdateTodo, hid, htid, hb, hs, hp, hnn,
        createdItemUpdatedAt]
  · intro hnull
    constructor <;>
      simp [TodoProcessor.handleUpdateTodo, hid, htid, hb, hs, hp, hnull,
        TodoProcessor.updateFailedError]

theorem c9_update_witness :
    (TodoProcessor.handleUpdateTodo parseUpdateBody "t9" evPutId7).success = true ∧
    createdItemId (TodoProcessor.handleUpdateTodo parseUpdateBody "t9" evPutId7) =
      some "7" ∧
    createdItemContent (TodoProcessor.handleUpdateTodo parseUpdateBody "t9" evPutId7) =
      some "updated" ∧
    createdItemIsDone (TodoProcessor.handleUpdateTodo parseUpdateBody "t9" evPutId7) =
      some true ∧
    createdItemCreatedAt (TodoProcessor.handleUpdateTodo parseUpdateBody "t9" evPutId7) =
      some "2024-01-01T00:00:00.000Z" ∧
    createdItemUpdatedAt (TodoProcessor.handleUpdateTodo parseUpdateBody "t9" evPutId7) =
      some "t9" ∧
    (TodoProcessor.handleUpdateTodo parseNull "t9" evPutId7).success = false ∧
    (TodoProcessor.handleUpdateTodo parseNull "t9" evPutId7).error.isSome :=
  ⟨((c9_update parseUpdateBody "t9" evPutId7 "7" "u"
      (Json.obj [("content", .str "updated"), ("isDone", .bool true)])
      rfl (by decide) rfl (by decide) rfl).1 rfl).1,
   ((c9_update parseUpdateBody "t9" evPutId7 "7" "u"
      (Json.obj [("content", .str "updated"), ("isDone", .bool true)])
      rfl (by decide) rfl (by decide) rfl).1 rfl).2.1,
   ((c9_update parseUpdateBody "t9" evPutId7 "7" "u"
      (Json.obj [("content", .str "updated"), ("isDone", .bool true)])
      rfl (by decide) rfl (by decide) rfl).1 rfl).2.2.1 "updated" rfl (by decide),
   ((c9_update parseUpdateBody "t9" evPutId7 "7" "u"
      (Json.obj [("content", .str "updated"), ("isDone", .bool true)])
      rfl (by decide) rfl (by decide) rfl).1 rfl).2.2.2.2.1 true rfl,
   ((c9_update parseUpdateBody "t9" evPutId7 "7" "u"
      (Json.obj [("content", .str "updated"), ("isDone", .bool true)])
      rfl (by decide) rfl (by decide) rfl).1 rfl).2.2.2.2.2.1,
   ((c9_update parseUpdateBody "t9" evPutId7 "7" "u"
      (Json.obj [("content", .str "updated"), ("isDone", .bool true)])
      rfl (by decide) rfl (by decide) rfl).1 rfl).2.2.2.2.2.2,
   ((c9_update parseNull "t9" evPutId7 "7" "u" Json.null
      rfl (by decide) rfl (by decide) rfl).2 rfl).1,
   ((c9_update parseNull "t9" evPutId7 "7" "u" Json.null
      rfl (by decide) rfl (by decide) rfl).2 rfl).2⟩

/-- C10: a POST to the greeting handler with an absent (null or empty)
body is not an error: the body is treated as an empty JSON object and the
handler answers 200 with the default message `Hello World!`. -/
theorem c10_post_absent_body (parseJson : String → Option Json)
    (envFunctionName : Option String) (now : String)
    (event : APIGatewayProxyEvent) (h : event.httpMethod = "POST")
    (hb : event.body = none ∨ event.body = some "") :
    (HelloWorld.handler parseJson envFunctionName now event).statusCode = 200 ∧
    responseMessage (HelloWorld.handler parseJson envFunctionName now event) =
      some (.str "Hello World!") := by
  have hh : HelloWorld.handler parseJson envFunctionName now event =
      HelloWorld.handlePostRequest parseJson envFunctionName now event := by
    simp [HelloWorld.handler, h]
  rw [hh]
  rcases hb with hb | hb <;>
    exact ⟨by simp [HelloWorld.handlePostRequest, hb],
      by simp [HelloWorld.handlePostRequest, hb, responseMessage, getField,
        lookupAssoc, jsFieldOr]⟩

theorem c10_post_absent_body_witness :
    (HelloWorld.handler parseNone none "t" evPostNoBody).statusCode = 200 ∧
    responseMessage (HelloWorld.handler parseNone none "t" evPostNoBody) =
      some (.str "Hello World!") :=
  c10_post_absent_body parseNone none "t" evPostNoBody rfl (Or.inl rfl)
